import Mathlib

/-!
Shallow embedding of the PDF-Parser-API pipeline
(app/services/pdf_processor.py, app/services/openai_client.py,
app/api/endpoints.py, app/models/schemas.py, app/core/config.py,
app/utils/exceptions.py), together with proofs about the claims on
validation, extraction, bounded dispatch and aggregation.

Modelling conventions:
- Wall-clock durations (time.time() differences) are opaque quantities;
  we model them as abstract Nat ticks supplied by the environment.
- Raw bytes are List Nat (each entry one byte value).
- JSON values (Python dict/list/Any) are the inductive JVal; JSON numbers
  are modelled as Nat (the claims only touch token counts and durations).
- The external rasterizer (fitz + PIL) and the HTTP service are oracles:
  a document carries the per-page render results the rasterizer would
  produce, and a dispatch carries a function from the request payload to
  the service behaviour observed for it.
-/

namespace PDFParserAPI

/-- The Python exception classes of app/utils/exceptions.py that can be
raised by the pipeline (PDFProcessingError is the base class; the others
are its subclasses). -/
inductive PyExcClass where
  | pdfProcessingError
  | invalidFileError
  | fileSizeError
  | apiCallError
  deriving DecidableEq, Repr

/-- A raised PDFProcessingError-family exception: its (most specific)
Python class and its message string. -/
structure PDFError where
  cls : PyExcClass
  message : String
  deriving DecidableEq, Repr

/-- app/core/config.py Settings.  Fields that are required in the source
(api url, key, model) are given placeholder defaults here so that concrete
instances can be written; every theorem quantifies over all Settings. -/
structure Settings where
  openai_api_url : String := "https://example.invalid/v1/chat/completions"
  openai_api_key : String := "test-key"
  openai_timeout : Nat := 30
  mmlm_model : String := "test-model"
  max_file_size : Nat := 50 * 1024 * 1024
  image_dpi : Nat := 300
  image_format : String := "PNG"
  max_concurrent_requests : Nat := 10
  batch_size : Nat := 5
  deriving Repr

/-- JSON-ish values, standing in for Python Dict[str, Any] payloads. -/
inductive JVal where
  | null
  | bool (b : Bool)
  | num (n : Nat)
  | str (s : String)
  | arr (elems : List JVal)
  | obj (fields : List (String × JVal))
  deriving Repr

/-- app/models/schemas.py ProcessingMetadata (all fields Optional,
defaulting to None). -/
structure ProcessingMetadata where
  confidence_score : Option Nat := none
  processing_time : Option Nat := none
  image_dimensions : Option (Nat × Nat) := none
  file_size : Option Nat := none
  additional_data : Option (List (String × JVal)) := none
  deriving Repr

/-- What the external rasterizer produces for one page that renders
successfully: the re-encoded image bytes (the pixmap → PIL → save
round-trip of extract_pages_as_images), the PIL image dimensions, and the
elapsed per-page render time. -/
structure PageRender where
  image : List Nat
  width : Nat
  height : Nat
  renderTime : Nat
  deriving DecidableEq, Repr

/-- A document as the pipeline sees it: its byte length and the outcome the
fitz parser/rasterizer oracle yields for it — either a parse failure
(fitz.open raises, message given), or one render outcome per page, in page
order.  The page count of a parsed document is the length of that list. -/
structure DocModel where
  fileLen : Nat
  parse : Except String (List (Except String PageRender))

/-- One element of the pages_data list returned by
extract_pages_as_images: the tuple (page_num + 1, image_bytes, metadata). -/
structure PageData where
  page_number : Nat
  image : List Nat
  metadata : ProcessingMetadata
  deriving Repr

/-- PDFProcessor.validate_pdf (pdf_processor.py lines 25-39).  Returns the
validation outcome together with a flag recording whether fitz.open was
reached (False means validation failed before any parsing work).  The size
check raises the base PDFProcessingError (outside the try block); inside
the try, a zero-page document raises InvalidFileError which the
except-clause re-wraps as InvalidFileError with the "Invalid PDF file: "
prefix, and a parse failure is wrapped the same way. -/
def validate_pdf (st : Settings) (doc : DocModel) : Except PDFError Unit × Bool :=
  if doc.fileLen > st.max_file_size then
    (.error ⟨.pdfProcessingError,
      "File size exceeds maximum allowed size of " ++ toString st.max_file_size ++ " bytes"⟩,
     false)
  else
    match doc.parse with
    | .error e => (.error ⟨.invalidFileError, "Invalid PDF file: " ++ e⟩, true)
    | .ok pages =>
      if pages.length = 0 then
        (.error ⟨.invalidFileError, "Invalid PDF file: PDF file contains no pages"⟩, true)
      else
        (.ok (), true)

/-- The metadata recorded for one extracted page
(pdf_processor.py lines 81-85). -/
def extractionMetadata (r : PageRender) : ProcessingMetadata :=
  { processing_time := some r.renderTime
    image_dimensions := some (r.width, r.height)
    file_size := some r.image.length }

/-- The page loop of extract_pages_as_images (pdf_processor.py lines
54-99): pages are rendered in document order, page i (0-based) yielding
entry (i + 1, bytes, metadata); the first render failure aborts the loop
with that failure. -/
def renderPages : Nat → List (Except String PageRender) → Except String (List PageData)
  | _, [] => .ok []
  | _, .error e :: _ => .error e
  | i, .ok r :: rest =>
    match renderPages (i + 1) rest with
    | .error e => .error e
    | .ok l => .ok (⟨i + 1, r.image, extractionMetadata r⟩ :: l)

/-- PDFProcessor.extract_pages_as_images (pdf_processor.py lines 41-114).
Any exception inside the try block — fitz.open failing or any page render
failing — is caught and re-raised as the base PDFProcessingError with the
"Failed to extract pages from PDF: " prefix; no partial list escapes. -/
def extract_pages_as_images (doc : DocModel) : Except PDFError (List PageData) :=
  match doc.parse with
  | .error e => .error ⟨.pdfProcessingError, "Failed to extract pages from PDF: " ++ e⟩
  | .ok pages =>
    match renderPages 0 pages with
    | .error e => .error ⟨.pdfProcessingError, "Failed to extract pages from PDF: " ++ e⟩
    | .ok l => .ok l

/-- PDFProcessor.process_pdf_stream (pdf_processor.py lines 116-132):
read (identity in the model), validate, then extract; any failure is
re-raised unchanged. -/
def process_pdf_stream (st : Settings) (doc : DocModel) : Except PDFError (List PageData) :=
  match (validate_pdf st doc).1 with
  | .error e => .error e
  | .ok _ => extract_pages_as_images doc

/-! ## OpenAI client embedding (app/services/openai_client.py) -/

/-- The base64 alphabet used by Python base64.b64encode. -/
def base64Chars : List Char :=
  "ABCDEFGHIJKLMNOPQRSTUVWXYZabcdefghijklmnopqrstuvwxyz0123456789+/".toList

/-- Character of the base64 alphabet at a 6-bit value. -/
def b64Char (n : Nat) : Char := base64Chars.getD n (Char.ofNat 65)

/-- RFC 4648 base64 with padding, as produced by
base64.b64encode(image_data).decode("utf-8") on openai_client.py line 35. -/
def base64Encode : List Nat → String
  | [] => ""
  | [b1] =>
    String.mk [b64Char (b1 / 4 % 64), b64Char (b1 % 4 * 16)] ++ "=="
  | [b1, b2] =>
    String.mk [b64Char (b1 / 4 % 64), b64Char (b1 % 4 * 16 + b2 / 16 % 16),
               b64Char (b2 % 16 * 4)] ++ "="
  | b1 :: b2 :: b3 :: rest =>
    String.mk [b64Char (b1 / 4 % 64), b64Char (b1 % 4 * 16 + b2 / 16 % 16),
               b64Char (b2 % 16 * 4 + b3 / 64 % 4), b64Char (b3 % 64)] ++ base64Encode rest

/-- The fixed instruction string of openai_client.py lines 36-41 (the four
adjacent Python string literals concatenated). -/
def instructionText : String :=
  "Please extract and transcribe only the raw text content from the following page image. " ++
  "Your response must be formatted in **Markdown**. " ++
  "If the image contains tables, convert them into valid Markdown table format. " ++
  "Do not add any extra commentary, explanation, or formatting beyond what is in the image."

/-- The image_url sub-object of the request payload. -/
structure ImageUrl where
  url : String
  deriving DecidableEq, Repr

/-- One element of the message content list: either the text instruction or
the embedded image. -/
inductive ContentItem where
  | text (text : String)
  | image_url (image_url : ImageUrl)
  deriving DecidableEq, Repr

/-- One chat message of the request payload. -/
structure ChatMessage where
  role : String
  content : List ContentItem
  deriving DecidableEq, Repr

/-- The request body dict built on openai_client.py lines 43-60. -/
structure RequestPayload where
  model : String
  messages : List ChatMessage
  max_tokens : Nat
  deriving DecidableEq, Repr

/-- The payload construction of OpenAIClient.process_image
(openai_client.py lines 43-60).  Note the media type in the data URL is the
literal "png" (line 53), independent of Settings.image_format. -/
def buildPayload (st : Settings) (image_data : List Nat) : RequestPayload :=
  { model := st.mmlm_model
    messages := [
      { role := "user"
        content := [
          .text instructionText,
          .image_url ⟨"data:image/png;base64," ++ base64Encode image_data⟩ ] } ]
    max_tokens := 1000 }

/-- Modelled from the spec claim on the request body: the same payload
shape but with a data URL whose media type matches the configured output
image format (spec section 6: "data:image/<fmt>;base64,<encoded page>",
with <fmt> the configured imageFormat).  The configured string is used as
given; the counterexample configures a lowercase format so that MIME case
normalization plays no role.  Written from the claim, to be compared with
buildPayload. -/
def specClaimPayload (st : Settings) (image_data : List Nat) : RequestPayload :=
  { model := st.mmlm_model
    messages := [
      { role := "user"
        content := [
          .text instructionText,
          .image_url ⟨"data:image/" ++ st.image_format ++ ";base64,"
            ++ base64Encode image_data⟩ ] } ]
    max_tokens := 1000 }

/-- Modelled from the amended claim: the request body shape with the data
URL media type fixed to png regardless of the configured image format, the
page image base64-encoded inside the data URL, a single user message whose
content is the fixed text instruction followed by the image, and the fixed
max_tokens cap of 1000.  Written from the amended claim wording, to be
compared with buildPayload. -/
def amendedSpecPayload (st : Settings) (image_data : List Nat) : RequestPayload :=
  { model := st.mmlm_model
    messages := [
      { role := "user"
        content := [
          .text instructionText,
          .image_url ⟨"data:image/png;base64," ++ base64Encode image_data⟩ ] } ]
    max_tokens := 1000 }

/-- What response.json() does with the body of one service response:
either it parses to a JSON object (the fields), or it raises an
aiohttp.ContentTypeError (a ClientError subclass), or it raises a JSON
decoding ValueError. -/
inductive ServiceBody where
  | parsable (fields : List (String × JVal))
  | unparsableContentType (err : String)
  | unparsableBody (err : String)
  deriving Repr

/-- The behaviour of the external completion service for one posted
request: the call times out, fails at transport level
(aiohttp.ClientError), or yields a response with a status code, a body,
and an elapsed latency. -/
inductive ServiceBehavior where
  | timeout
  | transportError (err : String)
  | response (status : Nat) (body : ServiceBody) (latency : Nat)
  deriving Repr

/-- Python dict.get(k, default). -/
def dictGet (fields : List (String × JVal)) (k : String) (default : JVal) : JVal :=
  match fields.lookup k with
  | some v => v
  | none => default

/-- Python dict update semantics for the literal with unpacking on
openai_client.py lines 96-102: an existing key keeps its position and gets
the new value, a new key is appended. -/
def dictSet (fields : List (String × JVal)) (k : String) (v : JVal) :
    List (String × JVal) :=
  if fields.any (fun p => p.1 = k) then
    fields.map (fun p => if p.1 = k then (k, v) else p)
  else
    fields ++ [(k, v)]

/-- The Python type name of a JVal, used in AttributeError messages. -/
def pyTypeName : JVal → String
  | .null => "NoneType"
  | .bool _ => "bool"
  | .num _ => "int"
  | .str _ => "str"
  | .arr _ => "list"
  | .obj _ => "dict"

/-- str() applied to a JVal inside an f-string.  The container cases do not
reproduce the exact Python repr (no claim depends on them). -/
def pyStr : JVal → String
  | .null => "None"
  | .bool true => "True"
  | .bool false => "False"
  | .num n => toString n
  | .str s => s
  | .arr _ => "[...]"
  | .obj _ => "\x7b...\x7d"

/-- The message of the AttributeError raised by calling .get on a non-dict
(Python quotes the type and attribute names; the quotes are not
reproduced). -/
def attrErrGet (v : JVal) : String :=
  pyTypeName v ++ " object has no attribute get"

/-- OpenAIClient.process_image (openai_client.py lines 25-126).  The
request payload is built from the image bytes and posted; the service
behaviour for that payload decides the outcome.  All four catch clauses
convert into a raised APICallError, modelled as the error branch:
- asyncio.TimeoutError (line 116),
- aiohttp.ClientError (line 120) — also reached when response.json()
  raises ContentTypeError,
- non-200 status (line 80) using error.message from the body when present,
- any other exception (line 122), e.g. a JSON decoding failure, an
  AttributeError from .get on a non-dict, or a TypeError from adding the
  API latency to a None processing_time.
On success (status 200) it returns the parsed body together with the
updated metadata of lines 90-103. -/
def process_image (st : Settings) (post : RequestPayload → ServiceBehavior)
    (image_data : List Nat) (metadata : ProcessingMetadata) :
    Except PDFError (List (String × JVal) × ProcessingMetadata) :=
  let payload := buildPayload st image_data
  match post payload with
  | .timeout =>
    .error ⟨.apiCallError,
      "API request timed out after " ++ toString st.openai_timeout ++ " seconds"⟩
  | .transportError e =>
    .error ⟨.apiCallError, "Network error during API request: " ++ e⟩
  | .response status body latency =>
    match body with
    | .unparsableContentType e =>
      .error ⟨.apiCallError, "Network error during API request: " ++ e⟩
    | .unparsableBody e =>
      .error ⟨.apiCallError, "Unexpected error during API request: " ++ e⟩
    | .parsable response_data =>
      if status ≠ 200 then
        match dictGet response_data "error" (.obj []) with
        | .obj errObj =>
          .error ⟨.apiCallError, "OpenAI API request failed: " ++
            pyStr (dictGet errObj "message" (.str "Unknown API error"))⟩
        | v =>
          .error ⟨.apiCallError, "Unexpected error during API request: " ++ attrErrGet v⟩
      else
        match metadata.processing_time with
        | none =>
          .error ⟨.apiCallError,
            "Unexpected error during API request: unsupported operand types for + NoneType and float"⟩
        | some t0 =>
          match dictGet response_data "usage" (.obj []) with
          | .obj usageObj =>
            let tok := dictGet usageObj "total_tokens" (.num 0)
            .ok (response_data,
              { confidence_score := metadata.confidence_score
                processing_time := some (t0 + latency)
                image_dimensions := metadata.image_dimensions
                file_size := metadata.file_size
                additional_data := some (dictSet
                  (dictSet (metadata.additional_data.getD [])
                    "api_processing_time" (.num latency))
                  "api_response_tokens" tok) })
          | v =>
            .error ⟨.apiCallError, "Unexpected error during API request: " ++ attrErrGet v⟩

/-- The four per-page error kinds of the spec taxonomy, read off the
service behaviour: Timeout, TransportError, ServiceError (non-success
status), MalformedResponse (success status but unparsable body). -/
def isFailureBehavior : ServiceBehavior → Bool
  | .timeout => true
  | .transportError _ => true
  | .response status body _ =>
    match body with
    | .unparsableContentType _ => true
    | .unparsableBody _ => true
    | .parsable _ => status ≠ 200

/-- One entry of the list returned by OpenAIClient.process_batch: the tuple
(page_num, response dict, metadata, error message or None). -/
structure PageOutcome where
  page_num : Nat
  response : List (String × JVal)
  metadata : ProcessingMetadata
  error : Option String
  deriving Repr

/-- How process_batch (openai_client.py lines 144-156) turns one page and
the gathered result of its _process_single_page task into an outcome entry:
an exception becomes (page_num, empty dict, extraction metadata, str(e)), a
success becomes (page_num, response, updated metadata, None). -/
def pageOutcome (st : Settings) (post : RequestPayload → ServiceBehavior)
    (p : PageData) : PageOutcome :=
  match process_image st post p.image p.metadata with
  | .ok (r, m) => ⟨p.page_number, r, m, none⟩
  | .error e => ⟨p.page_number, [], p.metadata, some e.message⟩

/-- OpenAIClient.process_batch (openai_client.py lines 128-159): one task
per page, gathered with return_exceptions=True, each result converted to an
outcome entry in task (page) order.  posts holds, per page, the service
behaviour oracle for that page.  The return type has no error channel: the
coordinator never lets a per-page exception escape. -/
def process_batch (st : Settings) (pages : List PageData)
    (posts : List (RequestPayload → ServiceBehavior)) : List PageOutcome :=
  (pages.zip posts).map (fun pb => pageOutcome st pb.2 pb.1)

/-! ## Completion-order model of asyncio.gather

asyncio.gather(*tasks) stores each task's result in the slot of that task
as the task completes, and hands the slot list back once every slot is
filled.  We model an arbitrary completion order as the list of task indices
in the order they finish; the slots start out empty. -/

/-- Write the result of each completing task into its own slot, in
completion order. -/
def fillSlots (results : List α) : List Nat → List (Option α) → List (Option α)
  | [], acc => acc
  | j :: rest, acc => fillSlots results rest (acc.set j results[j]?)

/-- The slot list gather ends up with, when the tasks with the given
results complete in the given order. -/
def gatherInOrder (results : List α) (order : List Nat) : List (Option α) :=
  fillSlots results order (List.replicate results.length none)

/-- process_batch under an explicit completion order of the per-page
tasks: each page's outcome is written into that page's slot when its task
completes. -/
def process_batch_scheduled (st : Settings) (pages : List PageData)
    (posts : List (RequestPayload → ServiceBehavior)) (order : List Nat) :
    List (Option PageOutcome) :=
  gatherInOrder (process_batch st pages posts) order

/-! ## Endpoint aggregation (app/api/endpoints.py, app/models/schemas.py) -/

/-- app/models/schemas.py PageResult. -/
structure PageResult where
  page_number : Nat
  processed_output : List (String × JVal)
  metadata : ProcessingMetadata
  error : Option String
  deriving Repr

/-- app/models/schemas.py PDFProcessResponse (the timestamp field is
omitted: it is a formatting detail no claim touches). -/
structure PDFProcessResponse where
  success : Bool
  total_pages : Nat
  processed_pages : Nat
  results : List PageResult
  processing_time : Nat
  errors : Option (List String)
  deriving Repr

/-- Python truthiness of the error field, as tested by the
`if error:` on endpoints.py line 77: None and the empty string are falsy. -/
def errTruthy : Option String → Bool
  | none => false
  | some s => s ≠ ""

/-- The per-outcome branch of the response loop (endpoints.py lines
76-95): a truthy error yields a PageResult with empty output and the error;
otherwise the response dict is kept and the error field is left at None. -/
def pageResultOf (o : PageOutcome) : PageResult :=
  if errTruthy o.error then
    ⟨o.page_num, [], o.metadata, o.error⟩
  else
    ⟨o.page_num, o.response, o.metadata, none⟩

/-- The response assembly of process_pdf (endpoints.py lines 72-115):
the results list, the "Page n: message" error strings, processed_count,
success := len(errors) == 0, and errors := the list if non-empty else
None. -/
def buildResponse (totalPages : Nat) (api_results : List PageOutcome)
    (t : Nat) : PDFProcessResponse :=
  let errorsList := api_results.filterMap (fun o =>
    if errTruthy o.error then
      some ("Page " ++ toString o.page_num ++ ": " ++ o.error.getD "")
    else none)
  { success := errorsList.length = 0
    total_pages := totalPages
    processed_pages := api_results.countP (fun o => !errTruthy o.error)
    results := api_results.map pageResultOf
    processing_time := t
    errors := if errorsList.length = 0 then none else some errorsList }

/-- What the route handler hands to the transport layer: a well-formed
response, a client error raised through create_http_exception (status 400,
carrying the PDFProcessingError), or a plain HTTPException status and
detail. -/
inductive EndpointResult where
  | report (resp : PDFProcessResponse)
  | clientError (status : Nat) (err : PDFError)
  | serverError (status : Nat) (detail : String)
  deriving Repr

/-- The process_pdf route (endpoints.py lines 38-125) for an upload whose
filename passes the ".pdf" check, returning the endpoint result together
with the number of dispatch calls made to the external service (one per
page handed to process_batch, zero when the pipeline fails earlier).
A PDFProcessingError from the stream step becomes a 400 via
create_http_exception.  The `if not pages_data:` branch raises an
HTTPException inside the try block, which the `except Exception` clause
catches and replaces with a 500. -/
def process_pdf (st : Settings) (doc : DocModel)
    (posts : List (RequestPayload → ServiceBehavior)) (t : Nat) :
    EndpointResult × Nat :=
  match process_pdf_stream st doc with
  | .error e => (.clientError 400 e, 0)
  | .ok pages_data =>
    if pages_data.length = 0 then
      (.serverError 500 "Internal server error occurred during processing", 0)
    else
      (.report (buildResponse pages_data.length (process_batch st pages_data posts) t),
       pages_data.length)

/-! ## Semaphore model (openai_client.py lines 23 and 30)

OpenAIClient wraps the whole service call in `async with self.semaphore`,
where the semaphore is created with settings.max_concurrent_requests
permits.  One batch is a set of page tasks; each task acquires a permit to
become in-flight and releases it when its call finishes.  The transition
system below is the embedding of asyncio.Semaphore acquire/release around
the call. -/

/-- The phase of one page-dispatch task: not yet admitted, holding a permit
with its service call in flight, or finished. -/
inductive TaskPhase where
  | waiting
  | inflight
  | finished
  deriving DecidableEq, Repr

/-- The shared state of one batch: the free permits of the semaphore and
the phase of every task. -/
structure SemState where
  permits : Nat
  tasks : List TaskPhase
  deriving DecidableEq, Repr

/-- The start state of a batch of m tasks under a semaphore with n
permits. -/
def SemState.init (n m : Nat) : SemState :=
  ⟨n, List.replicate m .waiting⟩

/-- How many service calls are in flight. -/
def inflightCount (s : SemState) : Nat :=
  s.tasks.countP (fun p => p = TaskPhase.inflight)

/-- One scheduler step: a waiting task acquires a free permit and starts
its call, or an in-flight task finishes its call and releases its permit.
A waiting task cannot start while no permit is free. -/
inductive SemStep : SemState → SemState → Prop where
  | acquire (i : Nat) (s : SemState) :
      s.tasks[i]? = some .waiting → 0 < s.permits →
      SemStep s ⟨s.permits - 1, s.tasks.set i .inflight⟩
  | release (i : Nat) (s : SemState) :
      s.tasks[i]? = some .inflight →
      SemStep s ⟨s.permits + 1, s.tasks.set i .finished⟩

/-! ## Helper lemmas -/

theorem string_append_ne_empty {s : String} (t : String) (h : s ≠ "") :
    s ++ t ≠ "" := by
  intro hst
  apply h
  apply String.ext
  have hd : s.data ++ t.data = [] := by
    have h2 := congrArg String.data hst
    simpa [String.data_append] using h2
  simpa using (List.append_eq_nil.mp hd).1

theorem process_batch_getElem? (st : Settings) (pages : List PageData)
    (posts : List (RequestPayload → ServiceBehavior)) (i : Nat)
    (p : PageData) (q : RequestPayload → ServiceBehavior)
    (hp : pages[i]? = some p) (hq : posts[i]? = some q) :
    (process_batch st pages posts)[i]? = some (pageOutcome st q p) := by
  unfold process_batch
  have hz : (pages.zip posts)[i]? = some (p, q) :=
    List.getElem?_zip_eq_some.mpr ⟨hp, hq⟩
  rw [List.getElem?_map, hz]
  rfl

theorem process_batch_length (st : Settings) (pages : List PageData)
    (posts : List (RequestPayload → ServiceBehavior))
    (hlen : posts.length = pages.length) :
    (process_batch st pages posts).length = pages.length := by
  simp [process_batch, hlen]

theorem fillSlots_length (results : List α) :
    ∀ (order : List Nat) (acc : List (Option α)),
      (fillSlots results order acc).length = acc.length := by
  intro order
  induction order with
  | nil => intro acc; rfl
  | cons j rest ih =>
    intro acc
    simp only [fillSlots]
    rw [ih, List.length_set]

theorem fillSlots_getElem? (results : List α) :
    ∀ (order : List Nat) (acc : List (Option α)) (j : Nat), j < acc.length →
      (fillSlots results order acc)[j]? =
        if j ∈ order then some results[j]? else acc[j]? := by
  intro order
  induction order with
  | nil =>
    intro acc j hj
    simp [fillSlots]
  | cons o rest ih =>
    intro acc j hj
    simp only [fillSlots]
    rw [ih _ j (by simpa using hj)]
    by_cases hjr : j ∈ rest
    · simp [hjr]
    · by_cases hjo : j = o
      · subst hjo
        simp [hjr, List.getElem?_set_self hj]
      · simp [hjr, hjo, List.getElem?_set_ne (by omega : o ≠ j)]

theorem gatherInOrder_perm (results : List α) (order : List Nat)
    (hperm : order.Perm (List.range results.length)) :
    gatherInOrder results order = results.map some := by
  apply List.ext_getElem?
  intro j
  by_cases hj : j < results.length
  · have hmem : j ∈ order := hperm.mem_iff.mpr (List.mem_range.mpr hj)
    rw [gatherInOrder, fillSlots_getElem? _ _ _ j (by simpa using hj)]
    simp [hmem, List.getElem?_eq_getElem hj]
  · have hlen : (gatherInOrder results order).length = results.length := by
      simp [gatherInOrder, fillSlots_length]
    rw [List.getElem?_eq_none (by omega), List.getElem?_eq_none (by simpa using (by omega : results.length ≤ j))]

theorem countP_set_eq (p : α → Bool) :
    ∀ (l : List α) (i : Nat) (x a : α), l[i]? = some x →
      (l.set i a).countP p + (if p x then 1 else 0) =
        l.countP p + (if p a then 1 else 0) := by
  intro l
  induction l with
  | nil => intro i x a h; simp at h
  | cons y tl ih =>
    intro i x a h
    cases i with
    | zero =>
      simp at h
      subst h
      simp [List.countP_cons]
      omega
    | succ n =>
      simp at h
      have h2 := ih n x a h
      simp [List.countP_cons]
      omega

theorem semStep_invariant {n : Nat} {s s2 : SemState}
    (hinv : inflightCount s + s.permits = n) (hstep : SemStep s s2) :
    inflightCount s2 + s2.permits = n := by
  cases hstep with
  | acquire i s hw hp =>
    have hc := countP_set_eq (fun p => p = TaskPhase.inflight)
      s.tasks i .waiting .inflight hw
    simp [inflightCount] at hc hinv ⊢
    omega
  | release i s hin =>
    have hc := countP_set_eq (fun p => p = TaskPhase.inflight)
      s.tasks i .inflight .finished hin
    simp [inflightCount] at hc hinv ⊢
    omega

theorem semReachable_invariant (n m : Nat) (s : SemState)
    (h : Relation.ReflTransGen SemStep (SemState.init n m) s) :
    inflightCount s + s.permits = n := by
  induction h with
  | refl =>
    have hz : inflightCount (SemState.init n m) = 0 := by
      simp [SemState.init, inflightCount, List.countP_eq_zero, List.mem_replicate]
    rw [hz]
    simp [SemState.init]
  | tail _ hstep ih => exact semStep_invariant ih hstep

theorem errTruthy_ne_none {e : Option String} (h : errTruthy e = true) :
    e ≠ none := by
  cases e with
  | none => simp [errTruthy] at h
  | some s => simp

theorem filterMap_ite_length (p : α → Bool) (g : α → β) (l : List α) :
    (l.filterMap (fun o => if p o then some (g o) else none)).length
      = l.countP p := by
  induction l with
  | nil => rfl
  | cons a tl ih =>
    by_cases h : p a <;> simp [List.filterMap_cons, h, ih, List.countP_cons]

theorem pageResultOf_error_none_iff (o : PageOutcome) :
    (pageResultOf o).error = none ↔ errTruthy o.error = false := by
  by_cases h : errTruthy o.error
  · simp [pageResultOf, h, errTruthy_ne_none h]
  · simp [pageResultOf, h]

theorem renderPages_length :
    ∀ (pages : List (Except String PageRender)) (i : Nat) (l : List PageData),
      renderPages i pages = .ok l → l.length = pages.length := by
  intro pages
  induction pages with
  | nil =>
    intro i l h
    simp [renderPages] at h
    simp [← h]
  | cons x tl ih =>
    intro i l h
    cases x with
    | error e => simp [renderPages] at h
    | ok r =>
      simp only [renderPages] at h
      cases hr : renderPages (i + 1) tl with
      | error e => rw [hr] at h; simp at h
      | ok l2 =>
        rw [hr] at h
        simp at h
        subst h
        simp [ih (i + 1) l2 hr]

theorem renderPages_ok_of_all_ok :
    ∀ (pages : List (Except String PageRender)) (i : Nat),
      (∀ x ∈ pages, ∃ r, x = .ok r) →
      ∃ l, renderPages i pages = .ok l ∧
        l.map (fun p => p.page_number) = List.range' (i + 1) pages.length := by
  intro pages
  induction pages with
  | nil => intro i _; exact ⟨[], rfl, by simp⟩
  | cons x tl ih =>
    intro i h
    obtain ⟨r, hr⟩ := h x (by simp)
    subst hr
    obtain ⟨l, hl, hmap⟩ := ih (i + 1) (fun y hy => h y (by simp [hy]))
    refine ⟨⟨i + 1, r.image, extractionMetadata r⟩ :: l, ?_, ?_⟩
    · simp [renderPages, hl]
    · simp [hmap, List.range'_succ]

theorem renderPages_error_of_bad :
    ∀ (pages : List (Except String PageRender)) (i : Nat),
      (∃ x ∈ pages, ∃ m, x = .error m) →
      ∃ e, renderPages i pages = .error e := by
  intro pages
  induction pages with
  | nil => intro i h; simp at h
  | cons x tl ih =>
    intro i h
    cases x with
    | error m => exact ⟨m, rfl⟩
    | ok r =>
      have hbad : ∃ y ∈ tl, ∃ m, y = .error m := by
        obtain ⟨y, hy, m, hm⟩ := h
        rcases List.mem_cons.mp hy with h1 | h1
        · rw [h1] at hm; simp at hm
        · exact ⟨y, h1, m, hm⟩
      obtain ⟨e, he⟩ := ih (i + 1) hbad
      exact ⟨e, by simp [renderPages, he]⟩

theorem validate_pdf_fst_ok_iff (st : Settings) (doc : DocModel) :
    (validate_pdf st doc).1 = .ok () ↔
      doc.fileLen ≤ st.max_file_size ∧
        ∃ pages, doc.parse = .ok pages ∧ pages.length ≠ 0 := by
  by_cases hsz : doc.fileLen > st.max_file_size
  · simp [validate_pdf, hsz]
  · cases hp : doc.parse with
    | error e => simp [validate_pdf, hsz, hp]
    | ok pages =>
      by_cases h0 : pages.length = 0
      · simp [validate_pdf, hsz, hp, h0]
        intro _
        exact List.length_eq_zero.mp h0
      · simp [validate_pdf, hsz, hp, h0]
        exact ⟨by omega, fun hnil => h0 (by simp [hnil])⟩

theorem extract_ok_parts (doc : DocModel) (pages : List (Except String PageRender))
    (l : List PageData) (hp : doc.parse = .ok pages)
    (h : extract_pages_as_images doc = .ok l) :
    renderPages 0 pages = .ok l := by
  simp only [extract_pages_as_images, hp] at h
  cases hr : renderPages 0 pages with
  | error e => rw [hr] at h; simp at h
  | ok l2 => rw [hr] at h; simp at h; rw [h]

theorem process_pdf_stream_ok_facts (st : Settings) (doc : DocModel)
    (pages_data : List PageData)
    (h : process_pdf_stream st doc = .ok pages_data) :
    ∃ pages, doc.parse = .ok pages ∧ pages_data.length = pages.length ∧
      pages.length ≠ 0 := by
  unfold process_pdf_stream at h
  cases hv : (validate_pdf st doc).1 with
  | error e => rw [hv] at h; simp at h
  | ok u =>
    rw [hv] at h
    obtain ⟨-, pages, hp, hn0⟩ := (validate_pdf_fst_ok_iff st doc).mp (by rw [hv])
    exact ⟨pages, hp, renderPages_length pages 0 pages_data (extract_ok_parts doc pages pages_data hp h), hn0⟩

theorem process_image_error_of_failure (st : Settings)
    (post : RequestPayload → ServiceBehavior) (image : List Nat)
    (metadata : ProcessingMetadata)
    (hfail : isFailureBehavior (post (buildPayload st image)) = true) :
    ∃ msg, msg ≠ "" ∧
      process_image st post image metadata = .error ⟨.apiCallError, msg⟩ := by
  cases hb : post (buildPayload st image) with
  | timeout =>
    exact ⟨"API request timed out after " ++ toString st.openai_timeout ++ " seconds",
      string_append_ne_empty _ (string_append_ne_empty _ (by decide)),
      by simp [process_image, hb]⟩
  | transportError e =>
    exact ⟨"Network error during API request: " ++ e,
      string_append_ne_empty _ (by decide), by simp [process_image, hb]⟩
  | response status body latency =>
    rw [hb] at hfail
    cases body with
    | unparsableContentType e =>
      exact ⟨"Network error during API request: " ++ e,
        string_append_ne_empty _ (by decide), by simp [process_image, hb]⟩
    | unparsableBody e =>
      exact ⟨"Unexpected error during API request: " ++ e,
        string_append_ne_empty _ (by decide), by simp [process_image, hb]⟩
    | parsable fields =>
      simp [isFailureBehavior] at hfail
      cases hv : dictGet fields "error" (.obj []) with
      | obj errObj =>
        exact ⟨"OpenAI API request failed: "
            ++ pyStr (dictGet errObj "message" (.str "Unknown API error")),
          string_append_ne_empty _ (by decide),
          by simp [process_image, hb, hfail, hv]⟩
      | null =>
        exact ⟨"Unexpected error during API request: " ++ attrErrGet .null,
          string_append_ne_empty _ (by decide),
          by simp [process_image, hb, hfail, hv]⟩
      | bool b =>
        exact ⟨"Unexpected error during API request: " ++ attrErrGet (.bool b),
          string_append_ne_empty _ (by decide),
          by simp [process_image, hb, hfail, hv]⟩
      | num n =>
        exact ⟨"Unexpected error during API request: " ++ attrErrGet (.num n),
          string_append_ne_empty _ (by decide),
          by simp [process_image, hb, hfail, hv]⟩
      | str s =>
        exact ⟨"Unexpected error during API request: " ++ attrErrGet (.str s),
          string_append_ne_empty _ (by decide),
          by simp [process_image, hb, hfail, hv]⟩
      | arr elems =>
        exact ⟨"Unexpected error during API request: " ++ attrErrGet (.arr elems),
          string_append_ne_empty _ (by decide),
          by simp [process_image, hb, hfail, hv]⟩

theorem pageOutcome_page_num (st : Settings)
    (q : RequestPayload → ServiceBehavior) (p : PageData) :
    (pageOutcome st q p).page_num = p.page_number := by
  cases h : process_image st q p.image p.metadata with
  | ok rm =>
    obtain ⟨r, m⟩ := rm
    simp [pageOutcome, h]
  | error e => simp [pageOutcome, h]

theorem pageResultOf_page_number (o : PageOutcome) :
    (pageResultOf o).page_number = o.page_num := by
  by_cases h : errTruthy o.error <;> simp [pageResultOf, h]

theorem countP_map_error_none (outs : List PageOutcome) :
    (outs.map pageResultOf).countP (fun r => r.error = none)
      = outs.countP (fun o => !errTruthy o.error) := by
  rw [List.countP_map]
  apply List.countP_congr
  intro o _
  by_cases h : errTruthy o.error <;>
    simp [Function.comp, h, pageResultOf_error_none_iff o]

theorem countP_map_error_ne_none (outs : List PageOutcome) :
    (outs.map pageResultOf).countP (fun r => r.error ≠ none)
      = outs.countP (fun o => errTruthy o.error) := by
  rw [List.countP_map]
  apply List.countP_congr
  intro o _
  by_cases h : errTruthy o.error <;>
    simp [Function.comp, h, pageResultOf, errTruthy_ne_none]

theorem forall_map_error_none_iff (outs : List PageOutcome) :
    (∀ r ∈ outs.map pageResultOf, r.error = none)
      ↔ ∀ o ∈ outs, errTruthy o.error = false := by
  simp [pageResultOf_error_none_iff]

theorem process_batch_page_numbers (st : Settings) (pages : List PageData)
    (posts : List (RequestPayload → ServiceBehavior))
    (hlen : posts.length = pages.length) :
    (process_batch st pages posts).map (fun o => o.page_num)
      = pages.map (fun p => p.page_number) := by
  apply List.ext_getElem?
  intro j
  by_cases hj : j < pages.length
  · have hpj : pages[j]? = some pages[j] := List.getElem?_eq_getElem hj
    have hqj : posts[j]? = some posts[j] :=
      List.getElem?_eq_getElem (show j < posts.length by omega)
    rw [List.getElem?_map, List.getElem?_map,
      process_batch_getElem? st pages posts j pages[j] posts[j] hpj hqj, hpj]
    simp [pageOutcome_page_num]
  · have h1 : (process_batch st pages posts).length ≤ j := by
      rw [process_batch_length st pages posts hlen]; omega
    rw [List.getElem?_map, List.getElem?_map,
      List.getElem?_eq_none h1, List.getElem?_eq_none (by omega)]
    rfl

/-! ## Claims -/

/-- C4: for every batch of m pages dispatched under the semaphore of
max_concurrent_requests permits, every reachable scheduler state has at
most max_concurrent_requests service calls in flight; moreover in-flight
calls plus free permits always equal the limit, so a waiting call can only
be admitted when a slot is free. -/
theorem claim_C4_concurrency_bound (st : Settings) (m : Nat) (s : SemState)
    (h : Relation.ReflTransGen SemStep
      (SemState.init st.max_concurrent_requests m) s) :
    inflightCount s ≤ st.max_concurrent_requests ∧
      inflightCount s + s.permits = st.max_concurrent_requests := by
  have hinv := semReachable_invariant st.max_concurrent_requests m s h
  exact ⟨by omega, hinv⟩

/-- Witness for C4: with limit 2 and 5 tasks, the state after one task
acquires a permit is reachable and satisfies the bound. -/
theorem claim_C4_concurrency_bound_witness :
    inflightCount ⟨1, [.inflight, .waiting, .waiting, .waiting, .waiting]⟩ ≤ 2 ∧
      inflightCount ⟨1, [.inflight, .waiting, .waiting, .waiting, .waiting]⟩
        + (1 : Nat) = 2 :=
  claim_C4_concurrency_bound { max_concurrent_requests := 2 } 5
    ⟨1, [.inflight, .waiting, .waiting, .waiting, .waiting]⟩
    (Relation.ReflTransGen.single
      (SemStep.acquire 0 (SemState.init 2 5) rfl (by decide)))

/-- C5: for every valid document with P pages all of which render,
extraction returns exactly P page records whose page numbers are the
sequence 1..P (strictly increasing, no gaps), as one fully built list. -/
theorem claim_C5_extraction_indices (doc : DocModel)
    (pages : List (Except String PageRender))
    (hp : doc.parse = .ok pages)
    (hok : ∀ x ∈ pages, ∃ r, x = .ok r) :
    ∃ l, extract_pages_as_images doc = .ok l ∧
      l.length = pages.length ∧
      l.map (fun p => p.page_number) = List.range' 1 pages.length := by
  obtain ⟨l, hl, hmap⟩ := renderPages_ok_of_all_ok pages 0 hok
  exact ⟨l, by simp [extract_pages_as_images, hp, hl],
    renderPages_length pages 0 l hl, by simpa using hmap⟩

/-- Witness for C5 at a concrete 2-page document. -/
theorem claim_C5_extraction_indices_witness :
    ((⟨9, .ok [.ok ⟨[7], 3, 4, 2⟩, .ok ⟨[5, 6], 3, 4, 1⟩]⟩ : DocModel).parse
        = .ok [.ok ⟨[7], 3, 4, 2⟩, .ok ⟨[5, 6], 3, 4, 1⟩]) ∧
    (∀ x ∈ ([.ok ⟨[7], 3, 4, 2⟩, .ok ⟨[5, 6], 3, 4, 1⟩] :
        List (Except String PageRender)), ∃ r, x = .ok r) ∧
    ∃ l, extract_pages_as_images
        ⟨9, .ok [.ok ⟨[7], 3, 4, 2⟩, .ok ⟨[5, 6], 3, 4, 1⟩]⟩ = .ok l ∧
      l.length = 2 ∧
      l.map (fun p => p.page_number) = List.range' 1 2 := by
  have hok : ∀ x ∈ ([.ok ⟨[7], 3, 4, 2⟩, .ok ⟨[5, 6], 3, 4, 1⟩] :
      List (Except String PageRender)), ∃ r, x = .ok r := by
    rintro x hx
    rcases List.mem_cons.mp hx with h | hx2
    · exact ⟨_, h⟩
    · rcases List.mem_cons.mp hx2 with h | hx3
      · exact ⟨_, h⟩
      · simp at hx3
  exact ⟨rfl, hok,
    claim_C5_extraction_indices
      ⟨9, .ok [.ok ⟨[7], 3, 4, 2⟩, .ok ⟨[5, 6], 3, 4, 1⟩]⟩
      [.ok ⟨[7], 3, 4, 2⟩, .ok ⟨[5, 6], 3, 4, 1⟩] rfl hok⟩

/-- C6 counterexample: a 2-page document whose second page fails to render
makes extraction fail with the base PDFProcessingError, not with the
InvalidFileError class the claim names. -/
theorem claim_C6_counterexample :
    extract_pages_as_images
        ⟨100, .ok [.ok ⟨[7], 3, 3, 1⟩, .error "render boom"]⟩ =
      .error ⟨.pdfProcessingError,
        "Failed to extract pages from PDF: render boom"⟩ ∧
    PyExcClass.pdfProcessingError ≠ PyExcClass.invalidFileError :=
  ⟨rfl, by decide⟩

/-- C6 (amended): for every document in which rendering any single page
fails, the whole extraction call fails — with the generic base
PDFProcessingError wrapping the render failure — and no partial page list
is returned. -/
theorem claim_C6_extraction_abort (doc : DocModel)
    (pages : List (Except String PageRender))
    (hp : doc.parse = .ok pages)
    (hbad : ∃ x ∈ pages, ∃ m, x = .error m) :
    ∃ e, extract_pages_as_images doc =
      .error ⟨.pdfProcessingError, "Failed to extract pages from PDF: " ++ e⟩ := by
  obtain ⟨e, he⟩ := renderPages_error_of_bad pages 0 hbad
  exact ⟨e, by simp [extract_pages_as_images, hp, he]⟩

/-- Witness for the amended C6 at a concrete 1-page document whose page
fails to render. -/
theorem claim_C6_extraction_abort_witness :
    ((⟨100, .ok [.error "x"]⟩ : DocModel).parse = .ok [.error "x"]) ∧
    (∃ x ∈ ([.error "x"] : List (Except String PageRender)), ∃ m, x = .error m) ∧
    ∃ e, extract_pages_as_images ⟨100, .ok [.error "x"]⟩ =
      .error ⟨.pdfProcessingError, "Failed to extract pages from PDF: " ++ e⟩ :=
  ⟨rfl, ⟨.error "x", by simp, "x", rfl⟩,
    claim_C6_extraction_abort _ _ rfl ⟨.error "x", by simp, "x", rfl⟩⟩

/-- C7: for every payload longer than the configured maximum, validation
fails before any parsing work (the parse-attempted flag is false) — but
with the base PDFProcessingError, not the FileSizeError subclass the code
itself declares for this purpose. -/
theorem claim_C7_size_check (st : Settings) (doc : DocModel)
    (h : doc.fileLen > st.max_file_size) :
    validate_pdf st doc =
      (.error ⟨.pdfProcessingError,
        "File size exceeds maximum allowed size of "
          ++ toString st.max_file_size ++ " bytes"⟩,
       false) := by
  simp [validate_pdf, h]

/-- Witness for C7: a payload one byte over the default 50 MiB limit. -/
theorem claim_C7_size_check_witness :
    ((⟨52428801, .ok []⟩ : DocModel).fileLen > ({} : Settings).max_file_size) ∧
    validate_pdf {} ⟨52428801, .ok []⟩ =
      (.error ⟨.pdfProcessingError,
        "File size exceeds maximum allowed size of 52428800 bytes"⟩,
       false) :=
  ⟨by decide, claim_C7_size_check {} ⟨52428801, .ok []⟩ (by decide)⟩

/-- C8: for every payload that parses to zero pages, and for every payload
that cannot be parsed at all, the route fails with an InvalidFileError
carried in a 400 client error, no dispatch call is made, and no report is
produced. -/
theorem claim_C8_invalid_before_dispatch (st : Settings) (doc : DocModel)
    (posts : List (RequestPayload → ServiceBehavior)) (t : Nat)
    (hsz : doc.fileLen ≤ st.max_file_size)
    (hbad : doc.parse = .ok [] ∨ ∃ e, doc.parse = .error e) :
    ∃ msg, process_pdf st doc posts t =
      (.clientError 400 ⟨.invalidFileError, msg⟩, 0) := by
  rcases hbad with h0 | ⟨e, he⟩
  · exact ⟨"Invalid PDF file: PDF file contains no pages",
      by simp [process_pdf, process_pdf_stream, validate_pdf, h0, Nat.not_lt.mpr hsz]⟩
  · exact ⟨"Invalid PDF file: " ++ e,
      by simp [process_pdf, process_pdf_stream, validate_pdf, he, Nat.not_lt.mpr hsz]⟩

/-- Witness for C8 at a concrete zero-page document. -/
theorem claim_C8_invalid_before_dispatch_witness :
    ((⟨0, .ok []⟩ : DocModel).fileLen ≤ ({} : Settings).max_file_size) ∧
    ((⟨0, .ok []⟩ : DocModel).parse = .ok [] ∨
      ∃ e, (⟨0, .ok []⟩ : DocModel).parse = .error e) ∧
    ∃ msg, process_pdf {} ⟨0, .ok []⟩ [] 0 =
      (.clientError 400 ⟨.invalidFileError, msg⟩, 0) :=
  ⟨by decide, .inl rfl,
    claim_C8_invalid_before_dispatch {} ⟨0, .ok []⟩ [] 0 (by decide) (.inl rfl)⟩

/-- C1: for every processed document that reaches aggregation, the report
has one result per extracted page (and per parsed page of the document),
success is true iff no result is a failure, processed_pages counts the
success results, and the errors list has one entry per failing page, being
None exactly when there is no failure. -/
theorem claim_C1_report_invariants (st : Settings) (doc : DocModel)
    (posts : List (RequestPayload → ServiceBehavior)) (t : Nat)
    (pages_data : List PageData)
    (hok : process_pdf_stream st doc = .ok pages_data)
    (hlen : posts.length = pages_data.length) :
    ∃ resp, process_pdf st doc posts t = (.report resp, pages_data.length) ∧
      resp.results.length = pages_data.length ∧
      (∀ pages, doc.parse = .ok pages → resp.results.length = pages.length) ∧
      (resp.success = true ↔ ∀ r ∈ resp.results, r.error = none) ∧
      resp.processed_pages = resp.results.countP (fun r => r.error = none) ∧
      (resp.errors.getD []).length
        = resp.results.countP (fun r => r.error ≠ none) ∧
      (resp.errors = none ↔ ∀ r ∈ resp.results, r.error = none) := by
  obtain ⟨pages0, hp0, hl0, hn0⟩ := process_pdf_stream_ok_facts st doc pages_data hok
  have hne : ¬ pages_data.length = 0 := by rw [hl0]; exact hn0
  have hrun : process_pdf st doc posts t =
      (.report (buildResponse pages_data.length
        (process_batch st pages_data posts) t), pages_data.length) := by
    simp [process_pdf, hok, hne]
  refine ⟨buildResponse pages_data.length (process_batch st pages_data posts) t,
    hrun, ?_, ?_, ?_, ?_, ?_, ?_⟩
  · simp [buildResponse, process_batch_length st pages_data posts hlen]
  · intro pages hp
    rw [hp0] at hp
    simp at hp
    subst hp
    simp [buildResponse, process_batch_length st pages_data posts hlen, hl0]
  · rw [show (buildResponse pages_data.length
        (process_batch st pages_data posts) t).success
      = decide ((process_batch st pages_data posts).countP
          (fun o => errTruthy o.error) = 0) by
        simp [buildResponse, filterMap_ite_length]]
    simp [buildResponse, List.countP_eq_zero]
    constructor
    · intro h a ha
      exact (pageResultOf_error_none_iff a).mpr (by simpa using h a ha)
    · intro h a ha
      simpa using (pageResultOf_error_none_iff a).mp (h a ha)
  · simp [buildResponse, countP_map_error_none]
    apply List.countP_congr
    intro o _
    by_cases h : errTruthy o.error
    · simp [Function.comp, pageResultOf, h, errTruthy_ne_none h]
    · simp [Function.comp, pageResultOf, h]
  · have hc : (process_batch st pages_data posts).countP
        ((fun r => !decide (r.error = none)) ∘ pageResultOf)
      = (process_batch st pages_data posts).countP (fun o => errTruthy o.error) := by
      apply List.countP_congr
      intro o _
      by_cases h : errTruthy o.error
      · simp [Function.comp, pageResultOf, h, errTruthy_ne_none h]
      · simp [Function.comp, pageResultOf, h]
    have hiff : ((process_batch st pages_data posts).filterMap (fun o =>
        if errTruthy o.error then
          some ("Page " ++ toString o.page_num ++ ": " ++ o.error.getD "")
        else none)).length
      = (process_batch st pages_data posts).countP (fun o => errTruthy o.error) :=
      filterMap_ite_length _ _ _
    by_cases h0 : (process_batch st pages_data posts).countP
        (fun o => errTruthy o.error) = 0
    · simp [buildResponse, hiff, h0, countP_map_error_ne_none]
      rw [hc]
      exact h0.symm
    · simp [buildResponse, hiff, h0, countP_map_error_ne_none]
      exact hc.symm
  · have hiff : ((process_batch st pages_data posts).filterMap (fun o =>
        if errTruthy o.error then
          some ("Page " ++ toString o.page_num ++ ": " ++ o.error.getD "")
        else none)).length
      = (process_batch st pages_data posts).countP (fun o => errTruthy o.error) :=
      filterMap_ite_length _ _ _
    by_cases h0 : (process_batch st pages_data posts).countP
        (fun o => errTruthy o.error) = 0
    · simp [buildResponse, hiff, h0, forall_map_error_none_iff]
      intro o ho
      exact (pageResultOf_error_none_iff o).mpr
        (by simpa using List.countP_eq_zero.mp h0 o ho)
    · have hpos : 0 < (process_batch st pages_data posts).countP
          (fun o => errTruthy o.error) := Nat.pos_of_ne_zero h0
      obtain ⟨o, ho, hto⟩ := List.countP_pos_iff.mp hpos
      simp [buildResponse, hiff, h0]
      refine ⟨o, ho, ?_⟩
      intro hnone
      have hfalse := (pageResultOf_error_none_iff o).mp hnone
      rw [hfalse] at hto
      cases hto

/-- Witness for C1 at a concrete 1-page document whose single dispatch
succeeds. -/
theorem claim_C1_report_invariants_witness :
    (process_pdf_stream {} ⟨5, .ok [.ok ⟨[9], 2, 3, 4⟩]⟩ =
      .ok [⟨1, [9],
        { confidence_score := none
          processing_time := some 4
          image_dimensions := some (2, 3)
          file_size := some 1
          additional_data := none }⟩]) ∧
    ∃ resp, process_pdf {} ⟨5, .ok [.ok ⟨[9], 2, 3, 4⟩]⟩
        [fun _ => .response 200 (.parsable []) 2] 0 = (.report resp, 1) ∧
      resp.results.length = 1 ∧
      (∀ pages, (⟨5, .ok [.ok ⟨[9], 2, 3, 4⟩]⟩ : DocModel).parse = .ok pages →
        resp.results.length = pages.length) ∧
      (resp.success = true ↔ ∀ r ∈ resp.results, r.error = none) ∧
      resp.processed_pages = resp.results.countP (fun r => r.error = none) ∧
      (resp.errors.getD []).length
        = resp.results.countP (fun r => r.error ≠ none) ∧
      (resp.errors = none ↔ ∀ r ∈ resp.results, r.error = none) :=
  ⟨rfl, claim_C1_report_invariants {} ⟨5, .ok [.ok ⟨[9], 2, 3, 4⟩]⟩
    [fun _ => .response 200 (.parsable []) 2] 0
    [⟨1, [9],
      { confidence_score := none
        processing_time := some 4
        image_dimensions := some (2, 3)
        file_size := some 1
        additional_data := none }⟩] rfl rfl⟩

/-- C2: for every batch, a page whose service behaviour is any of the four
per-page error kinds (timeout, transport error, non-success status,
unparsable body) yields a failure outcome with a non-empty human-readable
message and the page's own data; the batch still has one outcome per page,
its return type carries no exception, and every sibling outcome is exactly
the outcome its own page and behaviour determine, unaffected by the
failure. -/
theorem claim_C2_failure_isolation (st : Settings) (pages : List PageData)
    (posts : List (RequestPayload → ServiceBehavior)) (i : Nat)
    (p : PageData) (q : RequestPayload → ServiceBehavior)
    (hlen : posts.length = pages.length)
    (hp : pages[i]? = some p) (hq : posts[i]? = some q)
    (hfail : isFailureBehavior (q (buildPayload st p.image)) = true) :
    (∃ msg, msg ≠ "" ∧
      (process_batch st pages posts)[i]? =
        some ⟨p.page_number, [], p.metadata, some msg⟩) ∧
    (process_batch st pages posts).length = pages.length ∧
    ∀ (j : Nat) (pj : PageData) (qj : RequestPayload → ServiceBehavior),
      pages[j]? = some pj → posts[j]? = some qj →
      (process_batch st pages posts)[j]? = some (pageOutcome st qj pj) := by
  refine ⟨?_, process_batch_length st pages posts hlen, ?_⟩
  · obtain ⟨msg, hne, herr⟩ :=
      process_image_error_of_failure st q p.image p.metadata hfail
    refine ⟨msg, hne, ?_⟩
    rw [process_batch_getElem? st pages posts i p q hp hq]
    simp [pageOutcome, herr]
  · intro j pj qj hpj hqj
    exact process_batch_getElem? st pages posts j pj qj hpj hqj

/-- Witness for C2: a 2-page batch whose first page times out and whose
second page succeeds. -/
theorem claim_C2_failure_isolation_witness :
    (([fun _ => .timeout, fun _ => .response 200 (.parsable []) 3] :
        List (RequestPayload → ServiceBehavior)).length =
      ([⟨1, [], { processing_time := some 1 }⟩,
        ⟨2, [], { processing_time := some 1 }⟩] : List PageData).length) ∧
    (([⟨1, [], { processing_time := some 1 }⟩,
        ⟨2, [], { processing_time := some 1 }⟩] : List PageData)[0]? =
      some ⟨1, [], { processing_time := some 1 }⟩) ∧
    (([fun _ => .timeout, fun _ => .response 200 (.parsable []) 3] :
        List (RequestPayload → ServiceBehavior))[0]? =
      some (fun _ => .timeout)) ∧
    (isFailureBehavior ((fun _ => ServiceBehavior.timeout)
        (buildPayload {} (⟨1, [], { processing_time := some 1 }⟩ : PageData).image))
      = true) ∧
    ((∃ msg, msg ≠ "" ∧
      (process_batch {}
        [⟨1, [], { processing_time := some 1 }⟩,
         ⟨2, [], { processing_time := some 1 }⟩]
        [fun _ => .timeout, fun _ => .response 200 (.parsable []) 3])[0]? =
        some ⟨1, [], { processing_time := some 1 }, some msg⟩) ∧
    (process_batch {}
        [⟨1, [], { processing_time := some 1 }⟩,
         ⟨2, [], { processing_time := some 1 }⟩]
        [fun _ => .timeout, fun _ => .response 200 (.parsable []) 3]).length = 2 ∧
    ∀ (j : Nat) (pj : PageData) (qj : RequestPayload → ServiceBehavior),
      ([⟨1, [], { processing_time := some 1 }⟩,
        ⟨2, [], { processing_time := some 1 }⟩] : List PageData)[j]? = some pj →
      ([fun _ => .timeout, fun _ => .response 200 (.parsable []) 3] :
        List (RequestPayload → ServiceBehavior))[j]? = some qj →
      (process_batch {}
        [⟨1, [], { processing_time := some 1 }⟩,
         ⟨2, [], { processing_time := some 1 }⟩]
        [fun _ => .timeout, fun _ => .response 200 (.parsable []) 3])[j]? =
        some (pageOutcome {} qj pj)) :=
  ⟨rfl, rfl, rfl, rfl,
    claim_C2_failure_isolation {}
      [⟨1, [], { processing_time := some 1 }⟩,
       ⟨2, [], { processing_time := some 1 }⟩]
      [fun _ => .timeout, fun _ => .response 200 (.parsable []) 3]
      0 ⟨1, [], { processing_time := some 1 }⟩ (fun _ => .timeout)
      rfl rfl rfl rfl⟩

/-- C3: for every batch and every completion order of the page tasks, the
gather slots hold exactly the task-ordered outcomes, and the report results
carry the page numbers of the input pages in input order — out-of-order
completion cannot reorder the report. -/
theorem claim_C3_order_preservation (st : Settings) (pages : List PageData)
    (posts : List (RequestPayload → ServiceBehavior)) (order : List Nat)
    (t : Nat) (hlen : posts.length = pages.length)
    (hperm : order.Perm (List.range pages.length)) :
    process_batch_scheduled st pages posts order =
        (process_batch st pages posts).map some ∧
      (buildResponse pages.length (process_batch st pages posts) t).results.map
          (fun r => r.page_number)
        = pages.map (fun p => p.page_number) := by
  constructor
  · apply gatherInOrder_perm
    rw [process_batch_length st pages posts hlen]
    exact hperm
  · have h1 : (buildResponse pages.length
        (process_batch st pages posts) t).results
      = (process_batch st pages posts).map pageResultOf := rfl
    rw [h1, List.map_map]
    have h2 : ((fun r : PageResult => r.page_number) ∘ pageResultOf)
        = fun o => o.page_num := by
      funext o
      exact pageResultOf_page_number o
    rw [h2]
    exact process_batch_page_numbers st pages posts hlen

/-- Witness for C3: a 2-page batch whose second task completes before the
first (completion order [1, 0]). -/
theorem claim_C3_order_preservation_witness :
    (([fun _ => .timeout, fun _ => .response 200 (.parsable []) 3] :
        List (RequestPayload → ServiceBehavior)).length =
      ([⟨1, [], { processing_time := some 1 }⟩,
        ⟨2, [], { processing_time := some 1 }⟩] : List PageData).length) ∧
    ([1, 0].Perm (List.range
      ([⟨1, [], { processing_time := some 1 }⟩,
        ⟨2, [], { processing_time := some 1 }⟩] : List PageData).length)) ∧
    (process_batch_scheduled {}
        [⟨1, [], { processing_time := some 1 }⟩,
         ⟨2, [], { processing_time := some 1 }⟩]
        [fun _ => .timeout, fun _ => .response 200 (.parsable []) 3] [1, 0] =
      (process_batch {}
        [⟨1, [], { processing_time := some 1 }⟩,
         ⟨2, [], { processing_time := some 1 }⟩]
        [fun _ => .timeout, fun _ => .response 200 (.parsable []) 3]).map some ∧
    (buildResponse 2 (process_batch {}
        [⟨1, [], { processing_time := some 1 }⟩,
         ⟨2, [], { processing_time := some 1 }⟩]
        [fun _ => .timeout, fun _ => .response 200 (.parsable []) 3]) 7).results.map
        (fun r => r.page_number)
      = ([⟨1, [], { processing_time := some 1 }⟩,
          ⟨2, [], { processing_time := some 1 }⟩] : List PageData).map
          (fun p => p.page_number)) :=
  by
  have hperm : ([1, 0] : List Nat).Perm (List.range
      ([⟨1, [], { processing_time := some 1 }⟩,
        ⟨2, [], { processing_time := some 1 }⟩] : List PageData).length) := by
    have hr : List.range
        ([⟨1, [], { processing_time := some 1 }⟩,
          ⟨2, [], { processing_time := some 1 }⟩] : List PageData).length
        = [0, 1] := rfl
    rw [hr]
    exact List.Perm.swap 0 1 []
  exact ⟨rfl, hperm,
    claim_C3_order_preservation {}
      [⟨1, [], { processing_time := some 1 }⟩,
       ⟨2, [], { processing_time := some 1 }⟩]
      [fun _ => .timeout, fun _ => .response 200 (.parsable []) 3]
      [1, 0] 7 rfl hperm⟩

set_option maxRecDepth 8192 in
/-- C9 counterexample: with the output image format configured as jpeg,
the request payload the code builds does not carry a data URL whose media
type matches that format — the code hard-codes png. -/
theorem claim_C9_counterexample :
    buildPayload { image_format := "jpeg" } [] ≠
      specClaimPayload { image_format := "jpeg" } [] := by
  decide

/-- C9 (amended): for every page dispatched, the request body has the
shape (model, one user message holding the fixed text instruction and an
image_url whose data URL always has media type png and carries the
base64-encoded page image, max_tokens 1000) — the media type does not
follow the configured image format. -/
theorem claim_C9_payload_shape (st : Settings) (image_data : List Nat) :
    buildPayload st image_data = amendedSpecPayload st image_data := rfl

/-- C10: for every page whose dispatch fails, the failure outcome carries
the page's extraction-time metadata unchanged, while a successful dispatch
is the only case that carries the updated metadata. -/
theorem claim_C10_failure_metadata_frame (st : Settings)
    (pages : List PageData) (posts : List (RequestPayload → ServiceBehavior))
    (i : Nat) (p : PageData) (q : RequestPayload → ServiceBehavior)
    (hp : pages[i]? = some p) (hq : posts[i]? = some q) :
    (∀ e, process_image st q p.image p.metadata = .error e →
      (process_batch st pages posts)[i]? =
        some ⟨p.page_number, [], p.metadata, some e.message⟩) ∧
    (∀ r m, process_image st q p.image p.metadata = .ok (r, m) →
      (process_batch st pages posts)[i]? =
        some ⟨p.page_number, r, m, none⟩) := by
  constructor
  · intro e he
    rw [process_batch_getElem? st pages posts i p q hp hq]
    simp [pageOutcome, he]
  · intro r m hrm
    rw [process_batch_getElem? st pages posts i p q hp hq]
    simp [pageOutcome, hrm]

/-- Witness for C10: a 1-page batch whose dispatch times out keeps the
extraction metadata untouched. -/
theorem claim_C10_failure_metadata_frame_witness :
    (([⟨1, [4], { processing_time := some 6 }⟩] : List PageData)[0]? =
      some ⟨1, [4], { processing_time := some 6 }⟩) ∧
    (([fun _ => .timeout] : List (RequestPayload → ServiceBehavior))[0]? =
      some (fun _ => .timeout)) ∧
    ((∀ e, process_image {} (fun _ => .timeout) [4]
        { processing_time := some 6 } = .error e →
      (process_batch {} [⟨1, [4], { processing_time := some 6 }⟩]
        [fun _ => .timeout])[0]? =
        some ⟨1, [], { processing_time := some 6 }, some e.message⟩) ∧
    (∀ r m, process_image {} (fun _ => .timeout) [4]
        { processing_time := some 6 } = .ok (r, m) →
      (process_batch {} [⟨1, [4], { processing_time := some 6 }⟩]
        [fun _ => .timeout])[0]? =
        some ⟨1, r, m, none⟩)) := by
  refine ⟨rfl, rfl, ?_⟩
  have h := claim_C10_failure_metadata_frame {}
    [⟨1, [4], { processing_time := some 6 }⟩]
    [fun _ => .timeout] 0 ⟨1, [4], { processing_time := some 6 }⟩
    (fun _ => .timeout) rfl rfl
  exact ⟨h.1, h.2⟩

end PDFParserAPI
